import Mathlib

/-
  Verification development for the FCU_control telemetry core.

  Shallow embedding of:
  - src/services/canProtocol.ts   (frame decode/encode)
  - src/services/websocketService.ts (reconnect policy)
  - the App-level effects (chart history, fault log, control updates)
    from the unnamed App sources (src/unnamed/part_000 / part_001).

  JS numbers are embedded as exact rationals (ℚ); epoch-millisecond
  timestamps as ℤ; bytes as ℕ.  `Math.round` and `toFixed` both round
  half toward +∞ in JS, which `jsRound` captures.
-/

namespace FCU

/-- JS `Math.round`: round to nearest integer, half toward +∞. -/
def jsRound (q : ℚ) : ℤ := (q + 1/2).floor

/-- Characterisation of `jsRound` through the mathematical floor. -/
theorem jsRound_def (q : ℚ) : jsRound q = ⌊q + 1/2⌋ := by
  unfold jsRound
  rw [Rat.floor_def', Rat.floor_def]

/-- JS `x.toFixed(d)` (followed by `parseFloat`, which is the identity on
the resulting numeral): round to `d` decimal places, half toward +∞. -/
def toFixed (d : ℕ) (q : ℚ) : ℚ := (jsRound (q * (10 : ℚ) ^ d) : ℚ) / (10 : ℚ) ^ d

/-- Enum `SystemState` (types): OFF=0, START=1, RUN=2, FAULT=3.  The status
decoder produces the raw 2-bit number, so the field is embedded as ℕ. -/
def SystemState.OFF : ℕ := 0

/-- Status sub-object of `MachineState` (interface `SystemStatus`). -/
structure SystemStatus where
  heartbeat : ℕ
  state : ℕ
  faultLevel : ℕ
deriving DecidableEq, Repr

/-- Power sub-object of `MachineState` (interface `PowerData`). -/
structure PowerData where
  stackVoltage : ℚ
  stackCurrent : ℚ
  stackPower : ℚ
  dcfOutVoltage : ℚ
  dcfOutCurrent : ℚ
  dcfPower : ℚ
  dcfEfficiency : ℚ
deriving DecidableEq, Repr

/-- Sensor sub-object of `MachineState` (interface `SensorData`). -/
structure SensorData where
  stackTemp : ℚ
  ambientTemp : ℚ
  h2CylinderPressure : ℚ
  h2InletPressure : ℚ
  h2Concentration : ℚ
deriving DecidableEq, Repr

/-- IO sub-object of `MachineState` (interface `IOStatus` in the source;
field `io` of `MachineState` is embedded as `ioState`). -/
structure IOData where
  h2InletValve : Bool
  h2PurgeValve : Bool
  proportionalValve : Bool
  heater : Bool
  fan1 : Bool
  fan2 : Bool
  fan1Duty : ℕ
  dcfMosTemp : ℚ
  faultCode : ℕ
deriving DecidableEq, Repr

/-- The aggregate machine snapshot (interface `MachineState`); the source
field `io` is named `ioState` here. -/
structure MachineState where
  connected : Bool
  lastUpdate : ℤ
  status : SystemStatus
  power : PowerData
  sensors : SensorData
  ioState : IOData
deriving DecidableEq, Repr

/-- Constant `INITIAL_MACHINE_STATE` from the types module. -/
def INITIAL_MACHINE_STATE : MachineState :=
  { connected := false
    lastUpdate := 0
    status := { heartbeat := 0, state := 0, faultLevel := 0 }
    power := { stackVoltage := 0, stackCurrent := 0, stackPower := 0,
               dcfOutVoltage := 0, dcfOutCurrent := 0, dcfPower := 0,
               dcfEfficiency := 0 }
    sensors := { stackTemp := 25, ambientTemp := 25, h2CylinderPressure := 0,
                 h2InletPressure := 0, h2Concentration := 0 }
    ioState := { h2InletValve := false, h2PurgeValve := false,
                 proportionalValve := false, heater := false, fan1 := false,
                 fan2 := false, fan1Duty := 0, dcfMosTemp := 25, faultCode := 0 } }

/-- Enum `WorkMode` (TS numeric enum MANUAL=0, AUTO=1). -/
inductive WorkMode
  | MANUAL
  | AUTO
deriving DecidableEq, Repr

/-- Enum `ControlCommand` (TS numeric enum). -/
inductive ControlCommand
  | NONE
  | START
  | RESET
  | EMERGENCY_STOP
  | SHUTDOWN
deriving DecidableEq, Repr

/-- Numeric value of the TS enum `ControlCommand`. -/
def ControlCommand.toNat : ControlCommand → ℕ
  | .NONE => 0
  | .START => 1
  | .RESET => 2
  | .EMERGENCY_STOP => 3
  | .SHUTDOWN => 4

/-- Interface `ControlState` (TX side). -/
structure ControlState where
  mode : WorkMode
  command : ControlCommand
  forceInletValve : Bool
  forcePurgeValve : Bool
  forceHeater : Bool
  forceFan1 : Bool
  forceFan2 : Bool
  fan1TargetSpeed : ℚ
  dcfTargetVoltage : ℚ
  dcfTargetCurrent : ℚ
deriving DecidableEq, Repr

/-- Constant `INITIAL_CONTROL_STATE` from the types module. -/
def INITIAL_CONTROL_STATE : ControlState :=
  { mode := WorkMode.MANUAL
    command := ControlCommand.NONE
    forceInletValve := false
    forcePurgeValve := false
    forceHeater := false
    forceFan1 := false
    forceFan2 := false
    fan1TargetSpeed := 50
    dcfTargetVoltage := 24.0
    dcfTargetCurrent := 5.0 }

/-- The `FAULT_CODES` record from the types module (code → description). -/
def FAULT_CODES : ℕ → Option String
  | 0x00 => some "系统正常"
  | 0x01 => some "DCF 输入欠压 (严重)"
  | 0x02 => some "DCF 输入过压 (严重)"
  | 0x03 => some "DCF 输入过流 (紧急)"
  | 0x04 => some "DCF 输出欠压 (警告)"
  | 0x05 => some "DCF 输出过压 (严重)"
  | 0x06 => some "DCF 输出过流 (警告)"
  | 0x07 => some "DCF 内部过热 (严重)"
  | 0x10 => some "电堆过热 (严重)"
  | 0x11 => some "氢气泄漏 / 浓度过高 (紧急)"
  | 0x12 => some "氢气入口压力异常 (严重)"
  | 0x13 => some "CAN 通讯超时 (警告)"
  | 0x20 => some "风扇 1 故障 (警告)"
  | 0x21 => some "风扇 2 故障 (警告)"
  | _ => none

/-
  canProtocol.ts — frame payloads are `Uint8Array`s, embedded as `List ℕ`
  of byte values.  JS indexing out of range yields `undefined`; the
  embedding uses `List.getD _ 0`, and every theorem below only exercises
  in-bounds indices, where the two agree.
-/

/-- Byte access `data[i]` of a `Uint8Array`. -/
def byteAt (data : List ℕ) (i : ℕ) : ℕ := data.getD i 0

/-- Source `getUint16`: little-endian 16-bit read,
`data[offset] + (data[offset+1] << 8)`. -/
def getUint16 (data : List ℕ) (offset : ℕ) : ℕ :=
  byteAt data offset + (byteAt data (offset + 1) <<< 8)

/-- Source `getInt16`: `val > 32767 ? val - 65536 : val`. -/
def getInt16 (data : List ℕ) (offset : ℕ) : ℤ :=
  let val := getUint16 data offset
  if val > 32767 then (val : ℤ) - 65536 else (val : ℤ)

/-- Source `parseMsg1_Status`.  The source also sets
`lastUpdate: Date.now()`; the wall clock is the explicit argument `now`. -/
def parseMsg1_Status (data : List ℕ) (current : MachineState) (now : ℤ) :
    MachineState :=
  let heartbeat := byteAt data 0
  let state := byteAt data 1 &&& 0x03
  let faultLevel := (byteAt data 1 >>> 2) &&& 0x03
  { current with
    status := { heartbeat := heartbeat, state := state, faultLevel := faultLevel }
    lastUpdate := now }

/-- Raw stack voltage of the power frame: `getUint16(data, 0) * 0.01`. -/
def msg2_stackV (data : List ℕ) : ℚ := (getUint16 data 0 : ℚ) * 0.01

/-- Raw stack current of the power frame: `getUint16(data, 2) * 0.1`. -/
def msg2_stackI (data : List ℕ) : ℚ := (getUint16 data 2 : ℚ) * 0.1

/-- Raw DCF output voltage of the power frame: `getUint16(data, 4) * 0.01`. -/
def msg2_dcfV (data : List ℕ) : ℚ := (getUint16 data 4 : ℚ) * 0.01

/-- Raw DCF output current of the power frame: `getUint16(data, 6) * 0.1`. -/
def msg2_dcfI (data : List ℕ) : ℚ := (getUint16 data 6 : ℚ) * 0.1

/-- Derived stack power `stackP = stackV * stackI`. -/
def msg2_stackP (data : List ℕ) : ℚ := msg2_stackV data * msg2_stackI data

/-- Derived DCF power `dcfP = dcfV * dcfI`. -/
def msg2_dcfP (data : List ℕ) : ℚ := msg2_dcfV data * msg2_dcfI data

/-- Raw efficiency `stackP > 0 ? (dcfP / stackP) * 100 : 0`. -/
def msg2_effRaw (data : List ℕ) : ℚ :=
  if msg2_stackP data > 0 then msg2_dcfP data / msg2_stackP data * 100 else 0

/-- Clamped efficiency: `if (eff > 100) eff = 99.9`. -/
def msg2_eff (data : List ℕ) : ℚ :=
  if msg2_effRaw data > 100 then 99.9 else msg2_effRaw data

/-- Source `parseMsg2_Power`. -/
def parseMsg2_Power (data : List ℕ) (current : MachineState) : MachineState :=
  { current with
    power :=
      { stackVoltage := toFixed 2 (msg2_stackV data)
        stackCurrent := toFixed 1 (msg2_stackI data)
        stackPower := toFixed 1 (msg2_stackP data)
        dcfOutVoltage := toFixed 2 (msg2_dcfV data)
        dcfOutCurrent := toFixed 1 (msg2_dcfI data)
        dcfPower := toFixed 1 (msg2_dcfP data)
        dcfEfficiency := toFixed 1 (msg2_eff data) } }

/-- Source `parseMsg3_Sensors`. -/
def parseMsg3_Sensors (data : List ℕ) (current : MachineState) : MachineState :=
  let stackT : ℚ := (getInt16 data 0 : ℚ) * 0.1 - 40
  let ambT : ℚ := (getInt16 data 2 : ℚ) * 0.1 - 40
  let h2CylP : ℚ := (getUint16 data 4 : ℚ) * 0.01
  let h2InP : ℚ := (byteAt data 6 : ℚ) * 0.01
  let h2Conc : ℚ := (byteAt data 7 : ℚ) * 0.5
  { current with
    sensors :=
      { stackTemp := toFixed 1 stackT
        ambientTemp := toFixed 1 ambT
        h2CylinderPressure := toFixed 2 h2CylP
        h2InletPressure := toFixed 2 h2InP
        h2Concentration := toFixed 1 h2Conc } }

/-- Source `parseMsg4_IO` (renamed `parseMsg4_IOFrame` here). -/
def parseMsg4_IOFrame (data : List ℕ) (current : MachineState) : MachineState :=
  let flags := byteAt data 0
  let fan1Duty := byteAt data 1
  let dcfMosTemp : ℚ := (getInt16 data 2 : ℚ) * 0.1 - 40
  let faultCode := getUint16 data 4
  { current with
    ioState :=
      { h2InletValve := decide (flags &&& 0x01 ≠ 0)
        h2PurgeValve := decide (flags &&& 0x02 ≠ 0)
        proportionalValve := decide (flags &&& 0x04 ≠ 0)
        heater := decide (flags &&& 0x08 ≠ 0)
        fan1 := decide (flags &&& 0x10 ≠ 0)
        fan2 := decide (flags &&& 0x20 ≠ 0)
        fan1Duty := fan1Duty
        dcfMosTemp := toFixed 1 dcfMosTemp
        faultCode := faultCode } }

/-- Source `generateControlPacket`.  Bytes 3–6 are built in JS with
`& 0xFF` and `>> 8` on the (possibly negative) scaled int32; for an int32
`x`, `x & 0xFF = Int.emod x 256` and `(x >> 8) & 0xFF = Int.emod
(Int.ediv x 256) 256`, which is what the embedding uses. -/
def generateControlPacket (control : ControlState) : ℕ × List ℤ :=
  let byte0 : ℕ :=
    ((if control.mode = WorkMode.AUTO then 1 else 0) &&& 0x03) |||
      ((control.command.toNat &&& 0x07) <<< 2)
  let byte1 : ℕ :=
    if control.mode = WorkMode.MANUAL then
      let b := 0
      let b := if control.forceInletValve then b ||| 0x01 else b
      let b := if control.forcePurgeValve then b ||| 0x02 else b
      let b := if control.forceHeater then b ||| 0x04 else b
      let b := if control.forceFan1 then b ||| 0x08 else b
      let b := if control.forceFan2 then b ||| 0x10 else b
      b
    else 0
  let fanByte : ℤ := min 100 (max 0 (jsRound control.fan1TargetSpeed))
  let targetV_scaled : ℤ := jsRound (control.dcfTargetVoltage * 10)
  let targetI_scaled : ℤ := jsRound (control.dcfTargetCurrent * 10)
  (0x18FF10A0,
    [(byte0 : ℤ), (byte1 : ℤ), fanByte,
      Int.emod targetV_scaled 0x100, Int.emod (Int.ediv targetV_scaled 0x100) 0x100,
      Int.emod targetI_scaled 0x100, Int.emod (Int.ediv targetI_scaled 0x100) 0x100,
      0])

/-
  websocketService.ts — the reconnect policy.  The only mutable state the
  policy reads is the `reconnectAttempts` counter; the handlers emit
  observable actions (connectivity notifications, timer scheduling, the
  terminal "Max reconnection attempts reached" error).
-/

/-- Observable effects of the WebSocketService handlers. -/
inductive WsAction
  | notifyConnection (connected : Bool)
  | scheduleReconnect (delayMs : ℕ)
  | terminalError
deriving DecidableEq, Repr

/-- The session state read by the reconnect policy. -/
structure WsState where
  reconnectAttempts : ℕ
deriving DecidableEq, Repr

/-- Source field `maxReconnectAttempts = 10`. -/
def maxReconnectAttempts : ℕ := 10

/-- Source field `reconnectDelay = 2000`. -/
def reconnectDelay : ℕ := 2000

/-- Source `WebSocketService.attemptReconnect`: if the counter has reached
`maxReconnectAttempts`, log the terminal error and return without
scheduling; otherwise increment the counter and schedule a reconnect
after `reconnectDelay` ms. -/
def attemptReconnect (s : WsState) : WsState × List WsAction :=
  if s.reconnectAttempts ≥ maxReconnectAttempts then
    (s, [WsAction.terminalError])
  else
    ({ reconnectAttempts := s.reconnectAttempts + 1 },
      [WsAction.scheduleReconnect reconnectDelay])

/-- Source `ws.onclose` handler: `notifyConnection(false)` then
`attemptReconnect(url)`. -/
def onClose (s : WsState) : WsState × List WsAction :=
  let r := attemptReconnect s
  (r.1, WsAction.notifyConnection false :: r.2)

/-- Source `ws.onopen` handler: reset the counter, `notifyConnection(true)`. -/
def onOpen (_s : WsState) : WsState × List WsAction :=
  ({ reconnectAttempts := 0 }, [WsAction.notifyConnection true])

/-- State after `n` consecutive close events (no intervening open). -/
def closesFrom (s : WsState) : ℕ → WsState
  | 0 => s
  | n + 1 => (onClose (closesFrom s n)).1

/-
  App chart-history effect (src/unnamed/part_001, lines 200–226): on each
  incoming snapshot, drop points older than 600 s, append the new point,
  and recompute every relative time against the earliest retained point.
-/

/-- A chart history point (`time` is `relativeTimeSeconds`, `timestamp`
the epoch-millisecond absolute time). -/
structure ChartPoint where
  time : ℤ
  timestamp : ℤ
  voltage : ℚ
  current : ℚ
  temp : ℚ
deriving DecidableEq, Repr

/-- Relative time in whole seconds: `Math.round((ts - base) / 1000)`. -/
def relTime (base ts : ℤ) : ℤ := jsRound (((ts - base : ℤ) : ℚ) / 1000)

/-- The source's `filteredHistory`: drop points older than `maxSeconds =
600` seconds (`prev.filter(p => (now - p.timestamp) / 1000 <= maxSeconds)`). -/
def windowFilter (now : ℤ) (prev : List ChartPoint) : List ChartPoint :=
  prev.filter fun p =>
    decide ((((now - p.timestamp : ℤ) : ℚ)) / 1000 ≤ 600)

/-- The source's `baseTime`: the earliest retained point's timestamp, or
`now` when nothing is retained. -/
def histBase (now : ℤ) (filteredHistory : List ChartPoint) : ℤ :=
  match filteredHistory with
  | [] => now
  | p :: _ => p.timestamp

/-- Source `setHistory` updater from the chart-history effect: filter to
the 600 s window, compute `baseTime` from the earliest retained point,
append the new point, and recompute all relative times. -/
def updateHistory (now : ℤ) (voltage current temp : ℚ)
    (prev : List ChartPoint) : List ChartPoint :=
  (windowFilter now prev ++
    [({ time := relTime (histBase now (windowFilter now prev)) now
        timestamp := now
        voltage := voltage
        current := current
        temp := temp } : ChartPoint)]).map fun p =>
    { p with time := relTime (histBase now (windowFilter now prev)) p.timestamp }

/-
  App fault-log effect (src/unnamed/part_000 lines 183–199 and
  src/unnamed/part_001 lines 228–243; both copies are identical).

  A `FaultLog` entry stores `time` as the wall-clock string
  `new Date().toLocaleTimeString('zh-CN', { hour12: false })`, i.e. the
  local time of day with second precision; the embedding keeps it as the
  number of whole seconds since local midnight (`timeSod`).  The dedup
  check reparses that string as a date on 1970/01/01:
  `new Date('1970/01/01 ' + lastLog.time).getTime()`, which for a local
  timezone offset of `tz` seconds east of UTC equals
  `(timeSod - tz) * 1000` epoch milliseconds.
-/

/-- A fault-log entry (interface `FaultLog`). -/
structure FaultLog where
  id : ℤ
  timeSod : ℤ
  level : ℕ
  code : ℕ
  description : String
deriving DecidableEq, Repr

/-- Seconds since local midnight shown by
`toLocaleTimeString('zh-CN', { hour12: false })` at epoch-ms `now`, in a
timezone `tz` seconds east of UTC.  `Int.ediv`/`Int.emod` coincide with
the JS floor-division/positive-remainder semantics used here. -/
def localSecondsOfDay (tz now : ℤ) : ℤ := Int.emod (Int.ediv now 1000 + tz) 86400

/-- Epoch ms of `new Date('1970/01/01 ' + time).getTime()` for a
time-of-day of `sod` seconds in timezone `tz` (seconds east of UTC). -/
def parse1970 (tz sod : ℤ) : ℤ := (sod - tz) * 1000

/-- The append condition `!lastLog || lastLog.code !== faultCode ||
(Date.now() - new Date('1970/01/01 ' + lastLog.time).getTime() > 2000)`. -/
def shouldLogFault (tz now : ℤ) (faultCode : ℕ) (prev : List FaultLog) :
    Bool :=
  match prev with
  | [] => true
  | lastLog :: _ =>
    decide (lastLog.code ≠ faultCode) ||
      decide (now - parse1970 tz lastLog.timeSod > 2000)

/-- The freshly created entry (`newLog` in the source). -/
def mkFaultLog (tz now : ℤ) (faultCode faultLevel : ℕ) : FaultLog :=
  { id := now
    timeSod := localSecondsOfDay tz now
    level := faultLevel
    code := faultCode
    description := (FAULT_CODES faultCode).getD "未知故障" }

/-- Source `setFaultLogs` updater: guarded by `faultCode !== 0`; appends
(newest first, capped at 50 by `.slice(0, 50)`) unless the most recent
entry has the same code AND the reparsed-on-1970 timestamp is within
2000 ms of now. -/
def faultLogStep (tz now : ℤ) (faultCode faultLevel : ℕ)
    (prev : List FaultLog) : List FaultLog :=
  if faultCode ≠ 0 then
    if shouldLogFault tz now faultCode prev then
      (mkFaultLog tz now faultCode faultLevel :: prev).take 50
    else prev
  else prev

/-
  App control-update path (`handleControlUpdate`, src/unnamed/part_000
  lines 215–235 / part_001 lines 258–274): merge the update into the
  current control state, but only commit it and transmit when at least
  one of the listed fields actually differs.  A TS `Partial<ControlState>`
  is embedded as a record of `Option` fields; `some v` means the key is
  listed with value `v`.
-/

/-- A `Partial ControlState` update object. -/
structure ControlPatch where
  mode : Option WorkMode
  command : Option ControlCommand
  forceInletValve : Option Bool
  forcePurgeValve : Option Bool
  forceHeater : Option Bool
  forceFan1 : Option Bool
  forceFan2 : Option Bool
  fan1TargetSpeed : Option ℚ
  dcfTargetVoltage : Option ℚ
  dcfTargetCurrent : Option ℚ
deriving DecidableEq, Repr

/-- The empty update object (no keys listed). -/
def ControlPatch.empty : ControlPatch :=
  { mode := none, command := none, forceInletValve := none,
    forcePurgeValve := none, forceHeater := none, forceFan1 := none,
    forceFan2 := none, fan1TargetSpeed := none, dcfTargetVoltage := none,
    dcfTargetCurrent := none }

/-- JS spread `{ ...control, ...updates }`: listed keys override. -/
def mergeControl (control : ControlState) (updates : ControlPatch) :
    ControlState :=
  { mode := updates.mode.getD control.mode
    command := updates.command.getD control.command
    forceInletValve := updates.forceInletValve.getD control.forceInletValve
    forcePurgeValve := updates.forcePurgeValve.getD control.forcePurgeValve
    forceHeater := updates.forceHeater.getD control.forceHeater
    forceFan1 := updates.forceFan1.getD control.forceFan1
    forceFan2 := updates.forceFan2.getD control.forceFan2
    fan1TargetSpeed := updates.fan1TargetSpeed.getD control.fan1TargetSpeed
    dcfTargetVoltage := updates.dcfTargetVoltage.getD control.dcfTargetVoltage
    dcfTargetCurrent := updates.dcfTargetCurrent.getD control.dcfTargetCurrent }

/-- One disjunct of `Object.keys(updates).some(key => control[key] !==
updates[key])`: a listed key whose value differs from the current one. -/
def changedField {α : Type} [DecidableEq α] (o : Option α) (x : α) : Bool :=
  match o with
  | some v => decide (v ≠ x)
  | none => false

/-- Source `hasChanged`: some listed key differs from the current state. -/
def hasChanged (control : ControlState) (updates : ControlPatch) : Bool :=
  changedField updates.mode control.mode ||
  changedField updates.command control.command ||
  changedField updates.forceInletValve control.forceInletValve ||
  changedField updates.forcePurgeValve control.forcePurgeValve ||
  changedField updates.forceHeater control.forceHeater ||
  changedField updates.forceFan1 control.forceFan1 ||
  changedField updates.forceFan2 control.forceFan2 ||
  changedField updates.fan1TargetSpeed control.fan1TargetSpeed ||
  changedField updates.dcfTargetVoltage control.dcfTargetVoltage ||
  changedField updates.dcfTargetCurrent control.dcfTargetCurrent

/-- Source `handleControlUpdate`: returns the resulting control state and
the transmitted control message, if any (`wsService.sendControl`). -/
def handleControlUpdate (control : ControlState) (updates : ControlPatch) :
    ControlState × Option ControlState :=
  let newControl := mergeControl control updates
  if hasChanged control updates then (newControl, some newControl)
  else (control, none)

/-- Every listed field of the update equals the current state's value. -/
def listedAllEqual (control : ControlState) (updates : ControlPatch) : Prop :=
  (∀ v, updates.mode = some v → v = control.mode) ∧
  (∀ v, updates.command = some v → v = control.command) ∧
  (∀ v, updates.forceInletValve = some v → v = control.forceInletValve) ∧
  (∀ v, updates.forcePurgeValve = some v → v = control.forcePurgeValve) ∧
  (∀ v, updates.forceHeater = some v → v = control.forceHeater) ∧
  (∀ v, updates.forceFan1 = some v → v = control.forceFan1) ∧
  (∀ v, updates.forceFan2 = some v → v = control.forceFan2) ∧
  (∀ v, updates.fan1TargetSpeed = some v → v = control.fan1TargetSpeed) ∧
  (∀ v, updates.dcfTargetVoltage = some v → v = control.dcfTargetVoltage) ∧
  (∀ v, updates.dcfTargetCurrent = some v → v = control.dcfTargetCurrent)

end FCU

/-
  Helper lemmas (shared across the claim theorems below).
-/

/-- Evaluation lemma: rounding zero. -/
theorem jsRound_zero : FCU.jsRound 0 = 0 := by with_unfolding_all rfl

/-- Relative time of a point against its own timestamp is zero. -/
theorem relTime_self (x : ℤ) : FCU.relTime x x = 0 := by
  simp [FCU.relTime, jsRound_zero]

/-- Lower bound for `jsRound`. -/
theorem jsRound_nonneg (q : ℚ) (h : 0 ≤ q) : 0 ≤ FCU.jsRound q := by
  rw [FCU.jsRound_def]
  exact Int.le_floor.mpr (by push_cast; linarith)

/-- Upper bound for `jsRound`. -/
theorem jsRound_le (q : ℚ) (n : ℤ) (h : q + 1/2 < n + 1) : FCU.jsRound q ≤ n := by
  rw [FCU.jsRound_def]
  have := Int.floor_lt.mpr (show q + 1/2 < ((n + 1 : ℤ) : ℚ) by push_cast; linarith)
  omega

/-- Bounds of one-decimal rounding on `[0, 100]`. -/
theorem toFixed_one_bounds (q : ℚ) (h0 : 0 ≤ q) (h1 : q ≤ 100) :
    0 ≤ FCU.toFixed 1 q ∧ FCU.toFixed 1 q ≤ 100 := by
  unfold FCU.toFixed
  have hnn : (0 : ℤ) ≤ FCU.jsRound (q * 10 ^ 1) := by
    apply jsRound_nonneg
    positivity
  have hub : FCU.jsRound (q * 10 ^ 1) ≤ 1000 := by
    apply jsRound_le
    push_cast
    nlinarith
  constructor
  · apply div_nonneg _ (by norm_num)
    exact_mod_cast hnn
  · rw [div_le_iff₀ (by norm_num : (0:ℚ) < 10 ^ 1)]
    calc (FCU.jsRound (q * 10 ^ 1) : ℚ) ≤ 1000 := by exact_mod_cast hub
    _ = 100 * 10 ^ 1 := by norm_num

/-- Evaluation lemma: `toFixed 1 0 = 0`. -/
theorem toFixed_one_zero : FCU.toFixed 1 0 = 0 := by with_unfolding_all rfl

/-- Evaluation lemma: `toFixed 1 99.9 = 99.9`. -/
theorem toFixed_one_999 : FCU.toFixed 1 99.9 = 99.9 := by with_unfolding_all rfl

/-
  C4 — the spec's worked sensor-frame example.
-/

/-- C4 (counterexample): decoding the frame
`[0x20,0x03,0x20,0x03,0xB0,0x04,0x32,0x02]` does NOT give a stack
temperature of 41.6 °C: `0x0320 = 800`, and `800 × 0.1 − 40 = 40.0`, so
the spec example's claimed value 41.6 is miscomputed. -/
theorem sensors_example_stackTemp_not_41_6 :
    (FCU.parseMsg3_Sensors [0x20, 0x03, 0x20, 0x03, 0xB0, 0x04, 0x32, 0x02]
      FCU.INITIAL_MACHINE_STATE).sensors.stackTemp ≠ 41.6 := by
  with_unfolding_all decide

/-- C4 (amended): decoding the sensor frame
`[0x20,0x03,0x20,0x03,0xB0,0x04,0x32,0x02]` yields
stackTemp = ambientTemp = (0x0320×0.1)−40 = 40.0 °C,
h2CylinderPressure = 0x04B0×0.01 = 12.00 MPa,
h2InletPressure = 0x32×0.01 = 0.50 MPa and
h2Concentration = 0x02×0.5 = 1.0 %. -/
theorem sensors_example_decoded_values :
    (FCU.parseMsg3_Sensors [0x20, 0x03, 0x20, 0x03, 0xB0, 0x04, 0x32, 0x02]
      FCU.INITIAL_MACHINE_STATE).sensors =
    { stackTemp := 40, ambientTemp := 40, h2CylinderPressure := 12,
      h2InletPressure := 0.5, h2Concentration := 1 } := by
  with_unfolding_all rfl

/-
  C2 — dcfEfficiency range.
-/

/-- C2 (counterexample): for the power frame
`[100,0,10,0,100,0,10,0]` (stackV = 1 V, stackI = 1 A, dcfV = 1 V,
dcfI = 1 A, so stackPower = dcfPower = 1 W, both non-negative), the raw
ratio is exactly 100, the clamp `eff > 100` does not fire, and the
reported `dcfEfficiency` is 100 — outside the claimed interval
`[0, 99.9]`. -/
theorem dcfEfficiency_100_at_equal_powers :
    (FCU.parseMsg2_Power [100, 0, 10, 0, 100, 0, 10, 0]
        FCU.INITIAL_MACHINE_STATE).power.dcfEfficiency = 100 ∧
    ¬ (FCU.parseMsg2_Power [100, 0, 10, 0, 100, 0, 10, 0]
        FCU.INITIAL_MACHINE_STATE).power.dcfEfficiency ≤ 99.9 := by
  constructor
  · with_unfolding_all rfl
  · with_unfolding_all decide

/-
  C8 — per-frame sub-object replacement.
-/

/-- C8 (counterexample): `parseMsg1_Status` does not leave every other
field of the state unchanged — it also refreshes `lastUpdate` with the
current clock (`Date.now()`): decoding an all-zero status frame at clock
1 over the initial state (whose `lastUpdate` is 0) changes `lastUpdate`. -/
theorem parseMsg1_changes_lastUpdate :
    (FCU.parseMsg1_Status [0, 0, 0, 0, 0, 0, 0, 0]
      FCU.INITIAL_MACHINE_STATE 1).lastUpdate ≠
    FCU.INITIAL_MACHINE_STATE.lastUpdate := by
  decide

/-
  C3 — wrong-length frames.
-/

/-- C3 (counterexample): a 7-byte (not 8-byte) status frame is not
rejected — there is no `MalformedFrame` error anywhere in the codec — and
the previous state IS mutated: its `status` sub-object is replaced. -/
theorem shortFrame_status_still_mutates :
    (FCU.parseMsg1_Status [7, 6, 0, 0, 0, 0, 0]
      FCU.INITIAL_MACHINE_STATE 123).status ≠
    FCU.INITIAL_MACHINE_STATE.status := by
  decide

/-- C3 (amended): the decoders perform no payload-length validation.
Whenever bytes 0 and 1 are present — in particular for a 7-byte frame —
`parseMsg1_Status` decodes them normally, regardless of the total frame
length, replacing the status sub-object and refreshing `lastUpdate`. -/
theorem parseMsg1_no_length_validation :
    ∀ (b0 b1 : ℕ) (rest : List ℕ) (st : FCU.MachineState) (now : ℤ),
      FCU.parseMsg1_Status (b0 :: b1 :: rest) st now =
        { st with
          status := { heartbeat := b0, state := b1 &&& 0x03,
                      faultLevel := (b1 >>> 2) &&& 0x03 }
          lastUpdate := now } := by
  intro b0 b1 rest st now
  rfl

/-
  C1 — fault-log deduplication.
-/

/-- C1 (code bug): the dedup cool-down check reparses the entry's
formatted time-of-day onto 1970/01/01, so at any realistic wall-clock
time `Date.now() - parsed` is astronomically larger than 2000 ms and the
append branch is always taken.  Concretely (timezone UTC+8, the zh-CN
locale of the source): fault code 5 is logged at epoch ms 1760227200000
producing one entry, and a second occurrence of the same code 5 only
500 ms later is logged AGAIN (two entries), although the claim says the
second occurrence within 2000 ms must produce no new entry. -/
theorem faultLog_dedup_bug_eval :
    (FCU.faultLogStep 28800 1760227200000 5 2 []).length = 1 ∧
    (FCU.faultLogStep 28800 1760227200500 5 2
      (FCU.faultLogStep 28800 1760227200000 5 2 [])).length = 2 := by
  decide

/-- C2 (amended): for every power frame (all decoded powers are
necessarily non-negative), the reported `dcfEfficiency` lies in
`[0, 100]`; when the stack power is 0 the efficiency is 0; and whenever
the raw ratio `dcfPower/stackPower×100` STRICTLY exceeds 100 the result
is clamped to 99.9.  The value 100 itself is attainable (see the
counterexample), so the interval cannot be narrowed to `[0, 99.9]`. -/
theorem dcfEfficiency_bounds :
    ∀ (data : List ℕ) (st : FCU.MachineState),
      (0 ≤ (FCU.parseMsg2_Power data st).power.dcfEfficiency ∧
        (FCU.parseMsg2_Power data st).power.dcfEfficiency ≤ 100) ∧
      (FCU.msg2_stackP data = 0 →
        (FCU.parseMsg2_Power data st).power.dcfEfficiency = 0) ∧
      (FCU.msg2_effRaw data > 100 →
        (FCU.parseMsg2_Power data st).power.dcfEfficiency = 99.9) := by
  intro data st
  have hstackV : 0 ≤ FCU.msg2_stackV data := by
    unfold FCU.msg2_stackV
    positivity
  have hstackI : 0 ≤ FCU.msg2_stackI data := by
    unfold FCU.msg2_stackI
    positivity
  have hdcfV : 0 ≤ FCU.msg2_dcfV data := by
    unfold FCU.msg2_dcfV
    positivity
  have hdcfI : 0 ≤ FCU.msg2_dcfI data := by
    unfold FCU.msg2_dcfI
    positivity
  have hstackP : 0 ≤ FCU.msg2_stackP data := mul_nonneg hstackV hstackI
  have hdcfP : 0 ≤ FCU.msg2_dcfP data := mul_nonneg hdcfV hdcfI
  have hraw : 0 ≤ FCU.msg2_effRaw data := by
    unfold FCU.msg2_effRaw
    split
    · positivity
    · exact le_refl 0
  have heff0 : 0 ≤ FCU.msg2_eff data := by
    unfold FCU.msg2_eff
    split
    · norm_num
    · exact hraw
  have heff1 : FCU.msg2_eff data ≤ 100 := by
    unfold FCU.msg2_eff
    split
    · norm_num
    · linarith [not_lt.mp (by assumption : ¬ FCU.msg2_effRaw data > 100)]
  have hshow : (FCU.parseMsg2_Power data st).power.dcfEfficiency =
      FCU.toFixed 1 (FCU.msg2_eff data) := rfl
  refine ⟨?_, ?_, ?_⟩
  · rw [hshow]
    exact toFixed_one_bounds _ heff0 heff1
  · intro hz
    rw [hshow]
    have hr : FCU.msg2_effRaw data = 0 := by
      unfold FCU.msg2_effRaw
      rw [hz]
      norm_num
    have he : FCU.msg2_eff data = 0 := by
      unfold FCU.msg2_eff
      rw [hr]
      norm_num
    rw [he]
    exact toFixed_one_zero
  · intro hgt
    rw [hshow]
    have he : FCU.msg2_eff data = 99.9 := by
      unfold FCU.msg2_eff
      rw [if_pos hgt]
    rw [he]
    exact toFixed_one_999

/-- C2 (witness): the amended bounds evaluated concretely — the all-zero
frame has zero stack power and reports efficiency 0, and the frame
`[100,0,10,0,100,0,20,0]` has raw ratio 200 > 100 and reports the
clamped 99.9. -/
theorem dcfEfficiency_bounds_witness :
    0 ≤ (FCU.parseMsg2_Power [0, 0, 0, 0, 0, 0, 0, 0]
        FCU.INITIAL_MACHINE_STATE).power.dcfEfficiency ∧
    (FCU.parseMsg2_Power [0, 0, 0, 0, 0, 0, 0, 0]
        FCU.INITIAL_MACHINE_STATE).power.dcfEfficiency = 0 ∧
    (FCU.parseMsg2_Power [100, 0, 10, 0, 100, 0, 20, 0]
        FCU.INITIAL_MACHINE_STATE).power.dcfEfficiency = 99.9 :=
  ⟨(dcfEfficiency_bounds [0, 0, 0, 0, 0, 0, 0, 0] FCU.INITIAL_MACHINE_STATE).1.1,
   (dcfEfficiency_bounds [0, 0, 0, 0, 0, 0, 0, 0] FCU.INITIAL_MACHINE_STATE).2.1
     (by with_unfolding_all rfl),
   (dcfEfficiency_bounds [100, 0, 10, 0, 100, 0, 20, 0] FCU.INITIAL_MACHINE_STATE).2.2
     (by with_unfolding_all decide)⟩

/-
  C7 — control-encode byte1 gating.
-/

/-- C7: in AUTO mode `generateControlPacket` emits byte1 = 0 no matter
the five force flags; in MANUAL mode with only `forceHeater` set, byte1
has exactly bit 2 set (0x04). -/
theorem controlPacket_byte1_gating :
    ∀ c : FCU.ControlState,
      (c.mode = FCU.WorkMode.AUTO →
        (FCU.generateControlPacket c).2.getD 1 0 = 0) ∧
      (c.mode = FCU.WorkMode.MANUAL → c.forceHeater = true →
        c.forceInletValve = false → c.forcePurgeValve = false →
        c.forceFan1 = false → c.forceFan2 = false →
        (FCU.generateControlPacket c).2.getD 1 0 = 0x04) := by
  intro c
  constructor
  · intro h
    simp [FCU.generateControlPacket, h]
  · intro h hh hi hp h1 h2
    simp [FCU.generateControlPacket, h, hh, hi, hp, h1, h2]

/-- C7 (witness): byte1 for a concrete AUTO state with all force flags
set is 0; byte1 for a concrete MANUAL state with only the heater forced
is 0x04. -/
theorem controlPacket_byte1_gating_witness :
    (FCU.generateControlPacket
      { FCU.INITIAL_CONTROL_STATE with
        mode := FCU.WorkMode.AUTO
        forceInletValve := true
        forcePurgeValve := true
        forceHeater := true
        forceFan1 := true
        forceFan2 := true }).2.getD 1 0 = 0 ∧
    (FCU.generateControlPacket
      { FCU.INITIAL_CONTROL_STATE with
        forceHeater := true }).2.getD 1 0 = 0x04 :=
  ⟨(controlPacket_byte1_gating _).1 rfl,
   (controlPacket_byte1_gating _).2 rfl rfl rfl rfl rfl rfl⟩

/-
  C9 — only non-zero fault codes enter the fault log.
-/

/-- C9: a snapshot with `faultCode = 0` leaves the fault log untouched
whatever the fault level, and the fault-log step preserves the invariant
that every logged entry carries a non-zero code. -/
theorem faultLog_nonzero_codes :
    ∀ (tz now : ℤ) (faultLevel : ℕ) (prev : List FCU.FaultLog),
      (FCU.faultLogStep tz now 0 faultLevel prev = prev) ∧
      (∀ faultCode : ℕ, (∀ e ∈ prev, e.code ≠ 0) →
        ∀ e ∈ FCU.faultLogStep tz now faultCode faultLevel prev,
          e.code ≠ 0) := by
  intro tz now lvl prev
  constructor
  · simp [FCU.faultLogStep]
  · intro code hprev e he
    by_cases hc : code ≠ 0
    · unfold FCU.faultLogStep at he
      rw [if_pos hc] at he
      split at he
      · have hmem := List.take_subset 50 _ he
        rcases List.mem_cons.mp hmem with h1 | h1
        · rw [h1]
          exact hc
        · exact hprev e h1
      · exact hprev e he
    · push_neg at hc
      subst hc
      rw [(by simp [FCU.faultLogStep] :
        FCU.faultLogStep tz now 0 lvl prev = prev)] at he
      exact hprev e he

/-- C9 (witness): at concrete inputs — a zero fault code with warning
level over a one-entry log leaves it unchanged, and every entry after
logging code 1 over the empty log is non-zero. -/
theorem faultLog_nonzero_codes_witness :
    (FCU.faultLogStep 28800 1000 0 1
      [{ id := 0, timeSod := 0, level := 1, code := 5, description := "x" }] =
      [{ id := 0, timeSod := 0, level := 1, code := 5, description := "x" }]) ∧
    (∀ e ∈ FCU.faultLogStep 28800 1000 1 0 [], e.code ≠ 0) :=
  ⟨(faultLog_nonzero_codes 28800 1000 1
      [{ id := 0, timeSod := 0, level := 1, code := 5, description := "x" }]).1,
   (faultLog_nonzero_codes 28800 1000 0 []).2 1 (by simp)⟩

/-
  C10 — handleControlUpdate is an identity on no-op patches.
-/

/-- Characterisation of a single unchanged listed field. -/
theorem changedField_eq_false_iff {α : Type} [DecidableEq α]
    (o : Option α) (x : α) :
    FCU.changedField o x = false ↔ ∀ v, o = some v → v = x := by
  cases o <;> simp [FCU.changedField]

/-- C10: a partial control update whose every listed field equals the
current value is an identity — the control state is unchanged and nothing
is transmitted; a message is transmitted only when some listed field
actually differs. -/
theorem handleControlUpdate_identity :
    ∀ (control : FCU.ControlState) (updates : FCU.ControlPatch),
      (FCU.hasChanged control updates = false ↔
        FCU.listedAllEqual control updates) ∧
      (FCU.listedAllEqual control updates →
        FCU.handleControlUpdate control updates = (control, none)) ∧
      (∀ m, (FCU.handleControlUpdate control updates).2 = some m →
        ¬ FCU.listedAllEqual control updates) := by
  intro c u
  have hiff : FCU.hasChanged c u = false ↔ FCU.listedAllEqual c u := by
    simp only [FCU.hasChanged, Bool.or_eq_false_iff,
      changedField_eq_false_iff, FCU.listedAllEqual]
    tauto
  refine ⟨hiff, ?_, ?_⟩
  · intro h
    have hf : FCU.hasChanged c u = false := hiff.mpr h
    simp [FCU.handleControlUpdate, hf]
  · intro m hm hall
    have hf : FCU.hasChanged c u = false := hiff.mpr hall
    simp [FCU.handleControlUpdate, hf] at hm

/-- C10 (witness): the patch `{ mode: MANUAL }` lists only `mode`, whose
value equals the initial control state's mode — the update is an identity
and transmits nothing. -/
theorem handleControlUpdate_identity_witness :
    FCU.handleControlUpdate FCU.INITIAL_CONTROL_STATE
      { FCU.ControlPatch.empty with mode := some FCU.WorkMode.MANUAL } =
    (FCU.INITIAL_CONTROL_STATE, none) :=
  (handleControlUpdate_identity FCU.INITIAL_CONTROL_STATE
    { FCU.ControlPatch.empty with mode := some FCU.WorkMode.MANUAL }).2.1
    (by
      simp [FCU.listedAllEqual, FCU.ControlPatch.empty,
        FCU.INITIAL_CONTROL_STATE])

/-
  C5 — the reconnect policy.
-/

/-- After `n` consecutive closes starting below the budget the counter
grows by one per close, as long as it stays within the budget. -/
theorem closesFrom_of_le (k : ℕ) (h : k ≤ 10) :
    FCU.closesFrom { reconnectAttempts := 0 } k =
      { reconnectAttempts := k } := by
  induction k with
  | zero => rfl
  | succ n ih =>
    have hn : n ≤ 10 := Nat.le_of_succ_le h
    have hlt : n < 10 := Nat.lt_of_succ_le h
    unfold FCU.closesFrom
    rw [ih hn]
    simp [FCU.onClose, FCU.attemptReconnect, FCU.maxReconnectAttempts,
      Nat.not_le.mpr hlt]

/-- A saturated counter (≥ 10) is never changed by further closes. -/
theorem closesFrom_saturated (s : FCU.WsState) (n : ℕ)
    (h : s.reconnectAttempts ≥ FCU.maxReconnectAttempts) :
    FCU.closesFrom s n = s := by
  induction n with
  | zero => rfl
  | succ m ih =>
    unfold FCU.closesFrom
    rw [ih]
    simp [FCU.onClose, FCU.attemptReconnect, h]

/-- C5: each unexpected close first notifies connectivity subscribers
with `false`; while fewer than 10 attempts have failed it then schedules
exactly one reconnect after the fixed 2000 ms delay and increments the
counter; a successful open resets the counter to 0; once the counter has
reached 10 every further close yields the terminal error and never again
schedules a reconnect — in particular, starting from a fresh session,
closes 1 through 10 each schedule one attempt and the 11th consecutive
close schedules none. -/
theorem reconnect_policy :
    (∀ s : FCU.WsState, ∃ rest,
      (FCU.onClose s).2 = FCU.WsAction.notifyConnection false :: rest) ∧
    (∀ s : FCU.WsState,
      s.reconnectAttempts < FCU.maxReconnectAttempts →
      FCU.onClose s =
        ({ reconnectAttempts := s.reconnectAttempts + 1 },
          [FCU.WsAction.notifyConnection false,
           FCU.WsAction.scheduleReconnect 2000])) ∧
    (∀ s : FCU.WsState, (FCU.onOpen s).1.reconnectAttempts = 0) ∧
    (∀ (s : FCU.WsState) (n : ℕ),
      s.reconnectAttempts ≥ FCU.maxReconnectAttempts →
      (FCU.onClose (FCU.closesFrom s n)).2 =
        [FCU.WsAction.notifyConnection false, FCU.WsAction.terminalError]) ∧
    (∀ k : ℕ, k < 10 →
      FCU.onClose (FCU.closesFrom { reconnectAttempts := 0 } k) =
        ({ reconnectAttempts := k + 1 },
          [FCU.WsAction.notifyConnection false,
           FCU.WsAction.scheduleReconnect 2000])) ∧
    (FCU.onClose (FCU.closesFrom { reconnectAttempts := 0 } 10)).2 =
      [FCU.WsAction.notifyConnection false, FCU.WsAction.terminalError] := by
  have hclose_lt : ∀ s : FCU.WsState,
      s.reconnectAttempts < FCU.maxReconnectAttempts →
      FCU.onClose s =
        ({ reconnectAttempts := s.reconnectAttempts + 1 },
          [FCU.WsAction.notifyConnection false,
           FCU.WsAction.scheduleReconnect 2000]) := by
    intro s hs
    simp [FCU.onClose, FCU.attemptReconnect, Nat.not_le.mpr hs,
      FCU.reconnectDelay]
  have hclose_ge : ∀ s : FCU.WsState,
      s.reconnectAttempts ≥ FCU.maxReconnectAttempts →
      FCU.onClose s =
        (s, [FCU.WsAction.notifyConnection false,
             FCU.WsAction.terminalError]) := by
    intro s hs
    simp [FCU.onClose, FCU.attemptReconnect, hs]
  refine ⟨?_, hclose_lt, ?_, ?_, ?_, ?_⟩
  · intro s
    by_cases hs : s.reconnectAttempts < FCU.maxReconnectAttempts
    · exact ⟨_, congrArg Prod.snd (hclose_lt s hs)⟩
    · exact ⟨_, congrArg Prod.snd (hclose_ge s (Nat.le_of_not_lt hs))⟩
  · intro s
    rfl
  · intro s n hs
    rw [closesFrom_saturated s n hs, hclose_ge s hs]
  · intro k hk
    rw [closesFrom_of_le k (Nat.le_of_lt hk)]
    exact hclose_lt { reconnectAttempts := k } hk
  · rw [closesFrom_of_le 10 (le_refl 10),
      hclose_ge { reconnectAttempts := 10 } (le_refl 10)]

/-- C5 (witness): the policy evaluated concretely — the first close from
a fresh session schedules one 2000 ms reconnect with counter 1, a close
at a saturated counter (after any further closes) yields only the
terminal error, and the 11th consecutive close schedules nothing. -/
theorem reconnect_policy_witness :
    FCU.onClose { reconnectAttempts := 0 } =
      ({ reconnectAttempts := 1 },
        [FCU.WsAction.notifyConnection false,
         FCU.WsAction.scheduleReconnect 2000]) ∧
    (FCU.onClose (FCU.closesFrom { reconnectAttempts := 10 } 3)).2 =
      [FCU.WsAction.notifyConnection false, FCU.WsAction.terminalError] ∧
    (FCU.onClose (FCU.closesFrom { reconnectAttempts := 0 } 10)).2 =
      [FCU.WsAction.notifyConnection false, FCU.WsAction.terminalError] :=
  ⟨reconnect_policy.2.1 { reconnectAttempts := 0 } (by decide),
   reconnect_policy.2.2.2.1 { reconnectAttempts := 10 } 3 (by decide),
   reconnect_policy.2.2.2.2.2⟩

/-
  C6 — chart-history window invariant.
-/

/-- C6: after every history mutation, every retained point is within
600 s (600000 ms) of the current time, the history is non-empty and led
by its earliest point, that point's relative time is 0, and every
retained point's relative time is the rounded whole-second difference of
its timestamp from the earliest retained point's timestamp.  The
hypotheses (timestamps of the previous history are non-decreasing and
not in the future) are themselves established by this very update. -/
theorem chartHistory_window_invariant :
    ∀ (now : ℤ) (v cur tmp : ℚ) (prev : List FCU.ChartPoint),
      List.Pairwise (fun a b => a.timestamp ≤ b.timestamp) prev →
      (∀ p ∈ prev, p.timestamp ≤ now) →
      (∀ p ∈ FCU.updateHistory now v cur tmp prev,
        p.timestamp ≤ now ∧ now - p.timestamp ≤ 600 * 1000) ∧
      ∃ b rest, FCU.updateHistory now v cur tmp prev = b :: rest ∧
        b.time = 0 ∧
        ∀ p ∈ FCU.updateHistory now v cur tmp prev,
          b.timestamp ≤ p.timestamp ∧
          p.time = FCU.relTime b.timestamp p.timestamp := by
  intro now v cur tmp prev hsort hle
  have hFsubP : ∀ p ∈ FCU.windowFilter now prev, p ∈ prev :=
    fun p hp => (List.mem_filter.mp hp).1
  have hFcond : ∀ p ∈ FCU.windowFilter now prev,
      now - p.timestamp ≤ 600 * 1000 := by
    intro p hp
    have h3 : (((now - p.timestamp : ℤ) : ℚ)) / 1000 ≤ 600 :=
      of_decide_eq_true (List.mem_filter.mp hp).2
    have h4 : ((now - p.timestamp : ℤ) : ℚ) ≤ ((600 * 1000 : ℤ) : ℚ) := by
      rw [div_le_iff₀ (by norm_num : (0:ℚ) < 1000)] at h3
      push_cast at h3 ⊢
      linarith
    exact_mod_cast h4
  rcases hFd : FCU.windowFilter now prev with _ | ⟨q, tl⟩
  · -- nothing is retained from the previous history
    have hres : FCU.updateHistory now v cur tmp prev =
        [({ time := FCU.relTime now now
            timestamp := now
            voltage := v
            current := cur
            temp := tmp } : FCU.ChartPoint)] := by
      unfold FCU.updateHistory
      rw [hFd]
      rfl
    constructor
    · intro p hp
      rw [hres] at hp
      rcases List.mem_singleton.mp hp with rfl
      refine ⟨le_refl now, ?_⟩
      show now - now ≤ 600 * 1000
      omega
    · refine ⟨_, _, hres, ?_, ?_⟩
      · simp [relTime_self]
      · intro p hp
        rw [hres] at hp
        rcases List.mem_singleton.mp hp with rfl
        exact ⟨le_refl _, rfl⟩
  · -- the earliest retained point q anchors the window
    have hq_mem : q ∈ prev := hFsubP q (by rw [hFd]; exact List.mem_cons_self q tl)
    have hq_now : q.timestamp ≤ now := hle q hq_mem
    have hsortF : (FCU.windowFilter now prev).Pairwise
        (fun a b => a.timestamp ≤ b.timestamp) := hsort.filter _
    rw [hFd] at hsortF
    have hq_le_tl : ∀ x ∈ tl, q.timestamp ≤ x.timestamp :=
      (List.pairwise_cons.mp hsortF).1
    have hres : FCU.updateHistory now v cur tmp prev =
        ((q :: tl) ++
          [({ time := FCU.relTime q.timestamp now
              timestamp := now
              voltage := v
              current := cur
              temp := tmp } : FCU.ChartPoint)]).map
          (fun p => { p with time := FCU.relTime q.timestamp p.timestamp }) := by
      unfold FCU.updateHistory
      rw [hFd]
      rfl
    constructor
    · intro p hp
      rw [hres] at hp
      rcases List.mem_map.mp hp with ⟨p0, hp0, rfl⟩
      rcases List.mem_append.mp hp0 with h | h
      · have hw : p0 ∈ FCU.windowFilter now prev := by rw [hFd]; exact h
        exact ⟨hle p0 (hFsubP p0 hw), hFcond p0 hw⟩
      · rcases List.mem_singleton.mp h with rfl
        refine ⟨le_refl now, ?_⟩
        show now - now ≤ 600 * 1000
        omega
    · refine ⟨_, _, by rw [hres]; rfl, ?_, ?_⟩
      · simp [relTime_self]
      · intro p hp
        rw [hres] at hp
        rcases List.mem_map.mp hp with ⟨p0, hp0, rfl⟩
        refine ⟨?_, rfl⟩
        rcases List.mem_append.mp hp0 with h | h
        · rcases List.mem_cons.mp h with rfl | h2
          · exact le_refl _
          · exact hq_le_tl p0 h2
        · rcases List.mem_singleton.mp h with rfl
          exact hq_now

/-- C6 (witness): the invariant evaluated at a concrete update — a point
2 s old and a point 700 s old (which is evicted), with the update at
epoch ms 1000000. -/
theorem chartHistory_window_invariant_witness :
    (∀ p ∈ FCU.updateHistory 1000000 1 2 3
        [{ time := 0, timestamp := 300000, voltage := 5, current := 6, temp := 7 },
         { time := 698, timestamp := 998000, voltage := 8, current := 9, temp := 10 }],
      p.timestamp ≤ 1000000 ∧ 1000000 - p.timestamp ≤ 600 * 1000) ∧
    ∃ b rest, FCU.updateHistory 1000000 1 2 3
        [{ time := 0, timestamp := 300000, voltage := 5, current := 6, temp := 7 },
         { time := 698, timestamp := 998000, voltage := 8, current := 9, temp := 10 }] =
        b :: rest ∧
      b.time = 0 ∧
      ∀ p ∈ FCU.updateHistory 1000000 1 2 3
          [{ time := 0, timestamp := 300000, voltage := 5, current := 6, temp := 7 },
           { time := 698, timestamp := 998000, voltage := 8, current := 9, temp := 10 }],
        b.timestamp ≤ p.timestamp ∧
        p.time = FCU.relTime b.timestamp p.timestamp :=
  chartHistory_window_invariant 1000000 1 2 3
    [{ time := 0, timestamp := 300000, voltage := 5, current := 6, temp := 7 },
     { time := 698, timestamp := 998000, voltage := 8, current := 9, temp := 10 }]
    (by simp) (by simp)

/-
  C8 — which fields each decode replaces.
-/

/-- C8 (amended): `parseMsg2_Power`, `parseMsg3_Sensors` and
`parseMsg4_IO` each replace exactly their own sub-object — the
replacement depends only on the frame bytes, never on the previous state
(no old/new mixing) — and leave every other field of the state
unchanged.  `parseMsg1_Status` likewise replaces the `status` sub-object
wholesale, but in addition refreshes `lastUpdate` with the current
clock; the rest of the state is unchanged. -/
theorem decode_subobject_replacement :
    ∀ (data : List ℕ) (st st2 : FCU.MachineState) (now : ℤ),
      ((FCU.parseMsg2_Power data st).connected = st.connected ∧
       (FCU.parseMsg2_Power data st).lastUpdate = st.lastUpdate ∧
       (FCU.parseMsg2_Power data st).status = st.status ∧
       (FCU.parseMsg2_Power data st).sensors = st.sensors ∧
       (FCU.parseMsg2_Power data st).ioState = st.ioState ∧
       (FCU.parseMsg2_Power data st).power = (FCU.parseMsg2_Power data st2).power) ∧
      ((FCU.parseMsg3_Sensors data st).connected = st.connected ∧
       (FCU.parseMsg3_Sensors data st).lastUpdate = st.lastUpdate ∧
       (FCU.parseMsg3_Sensors data st).status = st.status ∧
       (FCU.parseMsg3_Sensors data st).power = st.power ∧
       (FCU.parseMsg3_Sensors data st).ioState = st.ioState ∧
       (FCU.parseMsg3_Sensors data st).sensors = (FCU.parseMsg3_Sensors data st2).sensors) ∧
      ((FCU.parseMsg4_IOFrame data st).connected = st.connected ∧
       (FCU.parseMsg4_IOFrame data st).lastUpdate = st.lastUpdate ∧
       (FCU.parseMsg4_IOFrame data st).status = st.status ∧
       (FCU.parseMsg4_IOFrame data st).power = st.power ∧
       (FCU.parseMsg4_IOFrame data st).sensors = st.sensors ∧
       (FCU.parseMsg4_IOFrame data st).ioState = (FCU.parseMsg4_IOFrame data st2).ioState) ∧
      ((FCU.parseMsg1_Status data st now).connected = st.connected ∧
       (FCU.parseMsg1_Status data st now).power = st.power ∧
       (FCU.parseMsg1_Status data st now).sensors = st.sensors ∧
       (FCU.parseMsg1_Status data st now).ioState = st.ioState ∧
       (FCU.parseMsg1_Status data st now).lastUpdate = now ∧
       (FCU.parseMsg1_Status data st now).status = (FCU.parseMsg1_Status data st2 now).status) := by
  intro data st st2 now
  exact ⟨⟨rfl, rfl, rfl, rfl, rfl, rfl⟩, ⟨rfl, rfl, rfl, rfl, rfl, rfl⟩,
    ⟨rfl, rfl, rfl, rfl, rfl, rfl⟩, ⟨rfl, rfl, rfl, rfl, rfl, rfl⟩⟩
